import Mathlib

/-!
Shallow embedding of two presentation-layer modules of the repository:

* `ExperimentalFeatures.tsx` (src/unnamed/part_000): the settings-panel widget
  with `FeatureToggle` rows and a boolean expansion flag, writing feature-flag
  preferences as the strings "true"/"false" under keys `flags.<flagName>`.
* `Input.tsx` (src/packages/component-library/src/Input.tsx): a styled text
  input with a Firefox-specific deferred cursor-positioning workaround and
  wrapper event handlers around caller-supplied handlers.

Pure computations (cursor-position arithmetic, flag conditions) become Lean
functions; DOM side effects become explicit traces of actions; browser state
(local storage, synced preferences, navigator) becomes explicit arguments.
-/

namespace ActualSpec

/-- JavaScript `String(b)` applied to a boolean `b`. -/
def stringOfBool (b : Bool) : String := if b then "true" else "false"

/-- The synced-preference store: a map from preference key to stored string. -/
def SyncedPrefs := String → Option String

/-- Writing one key of the synced-preference store
(the effect of the setter returned by `useSyncedPref`). -/
def setSyncedPref (prefs : SyncedPrefs) (key val : String) : SyncedPrefs :=
  fun k => if k = key then some val else prefs k

/-- The empty preference store. -/
def emptyPrefs : SyncedPrefs := fun _ => none

/-- The preference key used by `FeatureToggle` for flag `flagName`:
the template literal `flags.${flagName}` (part_000, line 33). -/
def flagPrefKey (flagName : String) : String := "flags." ++ flagName

/-- The checkbox `onChange` handler of `FeatureToggle` (part_000, lines 39-41):
with the flag currently displayed as `enabled`, it writes
`String(!enabled)` to the synced preference `flags.${flagName}`. -/
def featureToggleOnChange (prefs : SyncedPrefs) (flagName : String)
    (enabled : Bool) : SyncedPrefs :=
  setSyncedPref prefs (flagPrefKey flagName) (stringOfBool (!enabled))

/-- Browser local storage: a map from key to stored string
(`localStorage.getItem` returns `null` when the key is absent). -/
def LocalStorage := String → Option String

/-- The `showGoalTemplatesUI` condition of `ExperimentalFeatures`
(part_000, lines 76-79): `goalTemplatesUIEnabled ||
(goalTemplatesEnabled && localStorage.getItem('devEnableGoalTemplatesUI') === 'true')`. -/
def showGoalTemplatesUI (goalTemplatesEnabled goalTemplatesUIEnabled : Bool)
    (ls : LocalStorage) : Bool :=
  goalTemplatesUIEnabled ||
    (goalTemplatesEnabled && (ls "devEnableGoalTemplatesUI" == some "true"))

/-- The feature-toggle rows that can appear in the expanded panel. -/
inductive ToggleRow
  | goalTemplates
  | goalTemplatesUISub
  | actionTemplating
  | pluggyAiBankSync
deriving DecidableEq

/-- The rows rendered inside the expanded `ExperimentalFeatures` panel
(part_000, lines 85-108): the goal-templates toggle, then the subfeature
toggle for `goalTemplatesUIEnabled` exactly when `showGoalTemplatesUI` holds,
then the action-templating and Pluggy.ai toggles. -/
def expandedPanelRows (goalTemplatesEnabled goalTemplatesUIEnabled : Bool)
    (ls : LocalStorage) : List ToggleRow :=
  [ToggleRow.goalTemplates]
    ++ (if showGoalTemplatesUI goalTemplatesEnabled goalTemplatesUIEnabled ls
        then [ToggleRow.goalTemplatesUISub] else [])
    ++ [ToggleRow.actionTemplating, ToggleRow.pluggyAiBankSync]

/-- What `ExperimentalFeatures` renders as its `primaryAction`. -/
inductive PrimaryAction
  | togglesList (rows : List ToggleRow)
  | showLink
deriving DecidableEq

/-- The initial value of the `expanded` state of `ExperimentalFeatures`
(part_000, line 72: `useState(false)`). -/
def experimentalFeaturesInitialExpanded : Bool := false

/-- The `primaryAction` rendered by `ExperimentalFeatures`
(part_000, lines 81-123): the toggle list when `expanded`, otherwise the
"show experimental features" link. -/
def renderPrimaryAction (expanded goalTemplatesEnabled goalTemplatesUIEnabled : Bool)
    (ls : LocalStorage) : PrimaryAction :=
  if expanded then
    PrimaryAction.togglesList
      (expandedPanelRows goalTemplatesEnabled goalTemplatesUIEnabled ls)
  else PrimaryAction.showLink

/-- The user events the `ExperimentalFeatures` component offers: clicking the
"show experimental features" link (part_000, line 112) and toggling a flag
checkbox displayed with state `enabled` (part_000, lines 39-41). -/
inductive EFEvent
  | clickShowLink
  | toggleFlag (flag : String) (enabled : Bool)

/-- The full state of `ExperimentalFeatures`: its single `expanded` boolean
plus the external synced-preference store the toggles write to. -/
structure EFState where
  expanded : Bool
  prefs : SyncedPrefs

/-- One event step of `ExperimentalFeatures`: the link click runs
`setExpanded(true)` (part_000, line 112); a flag toggle writes its
preference and leaves `expanded` unchanged. -/
def efStep (s : EFState) : EFEvent → EFState
  | EFEvent.clickShowLink => { s with expanded := true }
  | EFEvent.toggleFlag flag enabled =>
      { s with prefs := featureToggleOnChange s.prefs flag enabled }

/-- The browser `navigator` environment seen by the `isFirefoxBrowser`
detection (Input.tsx, lines 19-27): whether `navigator` is defined, whether
reading `navigator.userAgent` throws, and the user-agent string when it does
not (`none` models a falsy `userAgent`, replaced by `''` via `|| ''`). -/
structure NavigatorEnv where
  defined : Bool
  userAgentThrows : Bool
  userAgent : Option String

/-- The `isFirefoxBrowser` detection (Input.tsx, lines 19-27): `false` when
`navigator` is undefined; inside a try/catch, lowercase the user agent and
test whether it includes `"firefox"`; the catch returns `false`. -/
def isFirefoxBrowser (nav : NavigatorEnv) : Bool :=
  if !nav.defined then false
  else if nav.userAgentThrows then false
  else ((nav.userAgent.getD "").toLower).containsSubstr "firefox"

/-- The try/catch constructs appearing in the program, in source order:
the catch in the `isFirefoxBrowser` detection (Input.tsx, lines 21-26) and
the catch around the `setSelectionRange` call in the deferred cursor callback
(Input.tsx, lines 95-100). -/
inductive CatchSite
  | firefoxDetection
  | cursorPositioning
deriving DecidableEq

/-- Enumeration of every failure-handling construct (try/catch) in the two
source files: part_000 has none; Input.tsx has the two sites above. -/
def catchSites : List CatchSite :=
  [CatchSite.firefoxDetection, CatchSite.cursorPositioning]

/-- The browser state read by the deferred cursor-positioning callback
(Input.tsx, lines 86-93): the input element's `scrollWidth`, `clientWidth`,
the length of `input.value` (with `input.value?.length || 0` collapsing a
missing value to `0`), and whether `setSelectionRange` throws. -/
structure DeferredEnv where
  scrollWidth : ℚ
  clientWidth : ℚ
  valueLength : ℕ
  setSelectionRangeThrows : Bool

/-- JavaScript `Math.round`: round half toward positive infinity. -/
def jsRound (q : ℚ) : ℤ := ⌊q + 1 / 2⌋

/-- The cursor position computed by the deferred callback (Input.tsx,
lines 91-93): clamp the click x-offset to `[0, clientWidth]`, take the ratio
to `clientWidth` when `scrollWidth > 0` (else `0`), scale by the value length
and round. -/
def cursorPos (x : ℚ) (env : DeferredEnv) : ℤ :=
  let relativeX := max 0 (min x env.clientWidth)
  let frac : ℚ := if env.scrollWidth > 0 then relativeX / env.clientWidth else 0
  jsRound (frac * (env.valueLength : ℚ))

/-- The browser `setSelectionRange` call, which may throw
(modelled as `Except`; Input.tsx, line 96). -/
def setSelectionRangeCall (env : DeferredEnv) : Except Unit Unit :=
  if env.setSelectionRangeThrows then Except.error () else Except.ok ()

/-- DOM actions the deferred cursor callback can perform. -/
inductive DomAction
  | setSelectionRange (startPos endPos : ℤ)
  | focus
deriving DecidableEq

/-- The deferred cursor-positioning callback scheduled by `handleClick`
(Input.tsx, lines 85-102): compute the cursor position, call
`setSelectionRange(cursorPos, cursorPos)` inside a try, and on an exception
fall back to `input.focus()`. The function is total: every outcome of the
browser call yields a plain action list, so no exception escapes. -/
def deferredCallback (x : ℚ) (env : DeferredEnv) : List DomAction :=
  let p := cursorPos x env
  match setSelectionRangeCall env with
  | Except.ok _ => [DomAction.setSelectionRange p p]
  | Except.error _ => [DomAction.focus]

/-- The synchronous steps `handleClick` can take, in trace order.
`scheduleCursorTimer d` schedules the deferred cursor callback with a
`setTimeout` delay of `d` milliseconds; `cancelCursorTimer` would be a
`clearTimeout` of that timer; `syncSetSelectionRange` would be a synchronous
selection write; `callerOnClick` invokes the caller-supplied `onClick`. -/
inductive ClickStep
  | scheduleCursorTimer (delayMs : ℕ)
  | cancelCursorTimer
  | syncSetSelectionRange
  | callerOnClick
deriving DecidableEq

/-- The synchronous trace of `handleClick` (Input.tsx, lines 78-107): when
the Firefox detection holds, schedule the deferred callback with
`setTimeout(..., 0)`; then call the caller's `onClick` if provided. -/
def handleClickTrace (firefox callerOnClickProvided : Bool) : List ClickStep :=
  (if firefox then [ClickStep.scheduleCursorTimer 0] else [])
    ++ (if callerOnClickProvided then [ClickStep.callerOnClick] else [])

/-- DOM events for which a handler could be wired on the rendered input. -/
inductive WiredEvent
  | click
  | change
  | blur
  | keyUp
  | keyDown
  | keyPress
  | focusEvt
  | mouseDown
  | mouseUp
deriving DecidableEq

/-- The DOM events for which the `Input` component itself wires a handler on
`ReactAriaInput` (Input.tsx, lines 126-145): `onClick`, `onKeyUp`, `onBlur`,
`onChange`. -/
def inputWiredEvents : List WiredEvent :=
  [WiredEvent.click, WiredEvent.keyUp, WiredEvent.blur, WiredEvent.change]

/-- The calls the key-up wrapper can make, in trace order. -/
inductive KeyUpCall
  | callerOnKeyUp
  | onEnterCall (value : String)
  | onEscapeCall (value : String)
deriving DecidableEq

/-- The `onKeyUp` wrapper (Input.tsx, lines 127-137): first call the caller's
`onKeyUp` if provided; then, if the key is `'Enter'` and `onEnter` is
provided, call `onEnter` with the input's current value; then likewise for
`'Escape'` and `onEscape`. -/
def onKeyUpHandler (key value : String)
    (callerOnKeyUpProvided onEnterProvided onEscapeProvided : Bool) :
    List KeyUpCall :=
  (if callerOnKeyUpProvided then [KeyUpCall.callerOnKeyUp] else [])
    ++ (if key = "Enter" ∧ onEnterProvided = true
        then [KeyUpCall.onEnterCall value] else [])
    ++ (if key = "Escape" ∧ onEscapeProvided = true
        then [KeyUpCall.onEscapeCall value] else [])

/-- The calls the blur wrapper can make, in trace order. -/
inductive BlurCall
  | onUpdateCall (value : String)
  | callerOnBlur
deriving DecidableEq

/-- The `onBlur` wrapper (Input.tsx, lines 138-141): call `onUpdate` with the
current value if provided, then the caller's `onBlur` if provided. -/
def onBlurHandler (value : String)
    (onUpdateProvided callerOnBlurProvided : Bool) : List BlurCall :=
  (if onUpdateProvided then [BlurCall.onUpdateCall value] else [])
    ++ (if callerOnBlurProvided then [BlurCall.callerOnBlur] else [])

/-- The calls the change wrapper can make, in trace order. -/
inductive ChangeCall
  | onChangeValueCall (value : String)
  | callerOnChange
deriving DecidableEq

/-- The `onChange` wrapper (Input.tsx, lines 142-145): call `onChangeValue`
with the current value if provided, then the caller's `onChange` if
provided. -/
def onChangeHandler (value : String)
    (onChangeValueProvided callerOnChangeProvided : Bool) : List ChangeCall :=
  (if onChangeValueProvided then [ChangeCall.onChangeValueCall value] else [])
    ++ (if callerOnChangeProvided then [ChangeCall.callerOnChange] else [])

/-- C1: for every feature flag shown by `FeatureToggle`, activating the
checkbox's change handler while the flag's displayed enabled state is `b`
writes to the synced preference keyed `flags.<flagName>` the string
representation of `!b`; the written value is always exactly `"true"` or
`"false"`, and after the toggle the stored string is that value. -/
theorem featureToggle_writes_negation (prefs : SyncedPrefs) (flagName : String)
    (b : Bool) :
    featureToggleOnChange prefs flagName b (flagPrefKey flagName)
        = some (stringOfBool (!b))
    ∧ (featureToggleOnChange prefs flagName b (flagPrefKey flagName) = some "true"
        ∨ featureToggleOnChange prefs flagName b (flagPrefKey flagName)
            = some "false") := by
  constructor
  · simp [featureToggleOnChange, setSyncedPref]
  · cases b <;> simp [featureToggleOnChange, setSyncedPref, stringOfBool]

/-- C2: in the expanded `ExperimentalFeatures` panel, the subfeature toggle
row for `goalTemplatesUIEnabled` is rendered if and only if
`goalTemplatesUIEnabled` is true, or `goalTemplatesEnabled` is true and the
local-storage value under `devEnableGoalTemplatesUI` is exactly `"true"`. -/
theorem goalTemplatesUISub_rendered_iff (gte gtui : Bool) (ls : LocalStorage) :
    ToggleRow.goalTemplatesUISub ∈ expandedPanelRows gte gtui ls
    ↔ (gtui = true
        ∨ (gte = true ∧ ls "devEnableGoalTemplatesUI" = some "true")) := by
  by_cases h : ls "devEnableGoalTemplatesUI" = some "true" <;>
    cases gte <;> cases gtui <;>
      simp [expandedPanelRows, showGoalTemplatesUI, h]

/-- C5: the `ExperimentalFeatures` component's only internal state is the
single boolean `expanded` flag, initially `false`; when it is `false` the
component renders the "show experimental features" link, and when it is
`true` it renders the list of feature toggles instead. -/
theorem experimentalFeatures_render (gte gtui : Bool) (ls : LocalStorage) :
    experimentalFeaturesInitialExpanded = false
    ∧ renderPrimaryAction false gte gtui ls = PrimaryAction.showLink
    ∧ renderPrimaryAction true gte gtui ls
        = PrimaryAction.togglesList (expandedPanelRows gte gtui ls) :=
  ⟨rfl, rfl, rfl⟩

/-- C8: the `ExperimentalFeatures` expansion flag is monotone: the only
transition writes `true`, so once the panel is expanded no sequence of events
offered by the component returns it to the collapsed state. -/
theorem expanded_monotone (s : EFState) (es : List EFEvent)
    (h : s.expanded = true) : (es.foldl efStep s).expanded = true := by
  induction es generalizing s with
  | nil => exact h
  | cons e es ih =>
      cases e with
      | clickShowLink => exact ih _ rfl
      | toggleFlag flag enabled => exact ih _ h

/-- Witness for C8 at a concrete expanded state and event sequence. -/
theorem expanded_monotone_witness :
    (({ expanded := true, prefs := emptyPrefs } : EFState).expanded = true)
    ∧ (([EFEvent.toggleFlag "goalTemplatesEnabled" true,
          EFEvent.clickShowLink].foldl efStep
            { expanded := true, prefs := emptyPrefs }).expanded = true) :=
  ⟨rfl, expanded_monotone { expanded := true, prefs := emptyPrefs }
    [EFEvent.toggleFlag "goalTemplatesEnabled" true, EFEvent.clickShowLink] rfl⟩

/-- C3 counterexample: the try/catch around the cursor-positioning call is
not the program's only failure-handling construct — the `isFirefoxBrowser`
detection contains a second catch (Input.tsx, lines 21-26). -/
theorem cursorCatch_not_only_catch :
    ¬ (catchSites = [CatchSite.cursorPositioning]) := by
  decide

/-- C3 amended: for every click processed by the deferred cursor-positioning
callback, if `setSelectionRange` raises, the exception is caught and the
callback falls back to `focus()`; no exception escapes (the callback is a
total function into plain action lists); and this try/catch is one of exactly
two failure-handling constructs in the program, the other being the catch in
the `isFirefoxBrowser` detection. -/
theorem deferredCallback_catch_fallback (x : ℚ) (env : DeferredEnv)
    (h : env.setSelectionRangeThrows = true) :
    deferredCallback x env = [DomAction.focus]
    ∧ catchSites = [CatchSite.firefoxDetection, CatchSite.cursorPositioning] := by
  refine ⟨?_, rfl⟩
  simp [deferredCallback, setSelectionRangeCall, h]

/-- Witness for C3 at a concrete environment whose `setSelectionRange`
throws. -/
theorem deferredCallback_catch_fallback_witness :
    ({ scrollWidth := 20, clientWidth := 10, valueLength := 3,
        setSelectionRangeThrows := true } : DeferredEnv).setSelectionRangeThrows
      = true
    ∧ deferredCallback 5
        { scrollWidth := 20, clientWidth := 10, valueLength := 3,
          setSelectionRangeThrows := true } = [DomAction.focus] :=
  ⟨rfl, (deferredCallback_catch_fallback 5
    { scrollWidth := 20, clientWidth := 10, valueLength := 3,
      setSelectionRangeThrows := true } rfl).1⟩

/-- C4: the click handler never writes the cursor selection synchronously
(its synchronous trace contains no selection write), a deferred cursor
callback is scheduled exactly when the Firefox detection is true and always
with delay 0, and the handler never cancels a scheduled timer. -/
theorem handleClick_defers_selection_write (nav : NavigatorEnv) (oc : Bool) :
    (handleClickTrace (isFirefoxBrowser nav) oc).count
        ClickStep.syncSetSelectionRange = 0
    ∧ (handleClickTrace (isFirefoxBrowser nav) oc).count
        ClickStep.cancelCursorTimer = 0
    ∧ ∀ d, (ClickStep.scheduleCursorTimer d
          ∈ handleClickTrace (isFirefoxBrowser nav) oc
        ↔ (isFirefoxBrowser nav = true ∧ d = 0)) := by
  cases hf : isFirefoxBrowser nav <;> cases oc <;>
    simp [handleClickTrace]

/-- Witness for C4 on a Firefox user agent with a caller-supplied
`onClick`. -/
theorem handleClick_defers_selection_write_witness :
    (handleClickTrace
        (isFirefoxBrowser
          { defined := true, userAgentThrows := false,
            userAgent := some "Mozilla/5.0 Gecko/20100101 Firefox/115.0" })
        true).count ClickStep.syncSetSelectionRange = 0 :=
  (handleClick_defers_selection_write
    { defined := true, userAgentThrows := false,
      userAgent := some "Mozilla/5.0 Gecko/20100101 Firefox/115.0" } true).1

/-- C6: the `Input` component wires DOM handlers only for the click, change,
blur and key-up events; within the key-up wrapper, `onEnter` is invoked with
the input's current value exactly when the pressed key is `"Enter"` and
`onEnter` is provided, and `onEscape` exactly when the key is `"Escape"` and
`onEscape` is provided. -/
theorem input_wires_four_events (key value w : String) (ck ke es : Bool) :
    (∀ ev, ev ∈ inputWiredEvents
      ↔ (ev = WiredEvent.click ∨ ev = WiredEvent.change ∨ ev = WiredEvent.blur
          ∨ ev = WiredEvent.keyUp))
    ∧ (KeyUpCall.onEnterCall w ∈ onKeyUpHandler key value ck ke es
        ↔ (key = "Enter" ∧ ke = true ∧ w = value))
    ∧ (KeyUpCall.onEscapeCall w ∈ onKeyUpHandler key value ck ke es
        ↔ (key = "Escape" ∧ es = true ∧ w = value)) := by
  refine ⟨?_, ?_, ?_⟩
  · intro ev; cases ev <;> simp [inputWiredEvents]
  · cases ck <;> cases ke <;> cases es <;>
      by_cases hk : key = "Enter" <;>
        by_cases he : key = "Escape" <;>
          simp [onKeyUpHandler, hk, he]
  · cases ck <;> cases ke <;> cases es <;>
      by_cases hk : key = "Enter" <;>
        by_cases he : key = "Escape" <;>
          simp [onKeyUpHandler, hk, he]

/-- C7: for every click handled by the deferred cursor-positioning callback
with strictly positive `clientWidth`, the computed cursor position is an
integer between 0 and the length of the input's value inclusive. -/
theorem cursorPos_in_range (x : ℚ) (env : DeferredEnv)
    (h : 0 < env.clientWidth) :
    0 ≤ cursorPos x env ∧ cursorPos x env ≤ (env.valueLength : ℤ) := by
  unfold cursorPos jsRound
  set r := max 0 (min x env.clientWidth) with hr
  have hr0 : 0 ≤ r := le_max_left _ _
  have hrw : r ≤ env.clientWidth :=
    max_le h.le (min_le_right _ _)
  set t : ℚ := if env.scrollWidth > 0 then r / env.clientWidth else 0 with ht
  have ht0 : 0 ≤ t := by
    rw [ht]; split
    · exact div_nonneg hr0 h.le
    · exact le_refl 0
  have ht1 : t ≤ 1 := by
    rw [ht]; split
    · exact (div_le_one h).mpr hrw
    · exact zero_le_one
  have hq0 : 0 ≤ t * (env.valueLength : ℚ) :=
    mul_nonneg ht0 (Nat.cast_nonneg _)
  have hq1 : t * (env.valueLength : ℚ) ≤ (env.valueLength : ℚ) := by
    calc t * (env.valueLength : ℚ) ≤ 1 * (env.valueLength : ℚ) :=
          mul_le_mul_of_nonneg_right ht1 (Nat.cast_nonneg _)
      _ = (env.valueLength : ℚ) := one_mul _
  constructor
  · exact Int.le_floor.mpr (by push_cast; linarith)
  · rw [Int.floor_le_iff]
    push_cast
    linarith

/-- Witness for C7 at a concrete click and element geometry: a click at
x-offset 5 on an input of client width 10, scroll width 20 and value length 3
yields cursor position 2. -/
theorem cursorPos_in_range_witness :
    (DeferredEnv.mk 20 10 3 false).clientWidth > 0
    ∧ (0 ≤ cursorPos 5 (DeferredEnv.mk 20 10 3 false)
        ∧ cursorPos 5 (DeferredEnv.mk 20 10 3 false) ≤ (3 : ℤ)) :=
  ⟨by norm_num, cursorPos_in_range 5 (DeferredEnv.mk 20 10 3 false)
    (by norm_num)⟩

/-- C9: although `Input` overrides the `onClick`, `onKeyUp`, `onBlur` and
`onChange` props after spreading the caller's props (so only the wrappers are
attached), every caller-supplied handler among these is still invoked exactly
once per corresponding event; the caller's `onKeyUp` runs first in the key-up
wrapper (before `onEnter`/`onEscape`), the caller's `onBlur` runs last
(after `onUpdate`), the caller's `onChange` runs last (after
`onChangeValue`), and the caller's `onClick` runs last in the click handler
(after the Firefox workaround is scheduled). -/
theorem caller_handlers_once_and_ordered (key value : String)
    (ke es up cv ff : Bool) :
    (onKeyUpHandler key value true ke es).count KeyUpCall.callerOnKeyUp = 1
    ∧ (onKeyUpHandler key value true ke es).head? = some KeyUpCall.callerOnKeyUp
    ∧ (onBlurHandler value up true).count BlurCall.callerOnBlur = 1
    ∧ (onBlurHandler value up true).getLast? = some BlurCall.callerOnBlur
    ∧ (onChangeHandler value cv true).count ChangeCall.callerOnChange = 1
    ∧ (onChangeHandler value cv true).getLast? = some ChangeCall.callerOnChange
    ∧ (handleClickTrace ff true).count ClickStep.callerOnClick = 1
    ∧ (handleClickTrace ff true).getLast? = some ClickStep.callerOnClick := by
  refine ⟨?_, ?_, ?_, ?_, ?_, ?_, ?_, ?_⟩ <;>
    cases ke <;> cases es <;> cases up <;> cases cv <;> cases ff <;>
      by_cases hk : key = "Enter" <;> by_cases he : key = "Escape" <;>
        simp [onKeyUpHandler, onBlurHandler, onChangeHandler,
          handleClickTrace, hk, he]

end ActualSpec
